import Mathlib

/-!
# Verification of the technical-analysis / market-sentiment core

Shallow embedding of `src/lib/services/technical-analysis.ts`: series
utilities (SMA/EMA), indicator calculators (RSI, MACD, Bollinger, ATR),
the pattern detector, the signal generator and the sentiment aggregator.

Numbers are modelled as exact rationals (`ℚ`): every constant appearing in
the source (`0.01`, `0.05`, `1.02`, `0.98`, `0.2`, `0.8`) is an exact
decimal here, and all arithmetic is the ideal field arithmetic that the
JavaScript floating-point code approximates.  `Math.sqrt`, which has no
exact rational counterpart, is abstracted as an explicit function
parameter `sqrtQ`; every theorem below holds for an arbitrary `sqrtQ`.
-/

namespace TechnicalAnalysis

/-- `"BUY" | "NEUTRAL" | "SELL"` from the `MarketSentiment.signals` entries. -/
inductive SignalType where
  | BUY
  | NEUTRAL
  | SELL
  deriving DecidableEq, Repr

/-- `"bullish" | "bearish" | "neutral"` from the `MarketSentiment.patterns` entries. -/
inductive PatternType where
  | bullish
  | bearish
  | neutral
  deriving DecidableEq, Repr

/-- The five-level overall classification of `MarketSentiment.overall`. -/
inductive Overall where
  | STRONG_BUY
  | BUY
  | NEUTRAL
  | SELL
  | STRONG_SELL
  deriving DecidableEq, Repr

/-- One OHLCV candle, as produced by `fetchOHLCV`. -/
structure Candle where
  time : ℤ
  «open» : ℚ
  high : ℚ
  low : ℚ
  close : ℚ
  volume : ℚ
  deriving DecidableEq, Repr

/-- The inline `{ macd, signal, histogram }` triple of `TechnicalIndicators.macd`. -/
structure MACDValue where
  macd : ℚ
  signal : ℚ
  histogram : ℚ
  deriving DecidableEq, Repr

/-- The inline `{ upper, middle, lower }` triple of `TechnicalIndicators.bollingerBands`. -/
structure BollingerValue where
  upper : ℚ
  middle : ℚ
  lower : ℚ
  deriving DecidableEq, Repr

/-- `interface TechnicalIndicators` (technical-analysis.ts, lines 9-43). -/
structure TechnicalIndicators where
  symbol : String
  price : ℚ
  sma20 : ℚ
  sma50 : ℚ
  sma200 : ℚ
  ema12 : ℚ
  ema26 : ℚ
  rsi14 : ℚ
  macd : MACDValue
  atr14 : ℚ
  bollingerBands : BollingerValue
  volumeSma20 : ℚ
  volumeRatio : ℚ
  fundingRate : ℚ
  openInterest : ℚ
  deriving DecidableEq, Repr

/-- One entry of `MarketSentiment.signals`. -/
structure Signal where
  indicator : String
  signal : SignalType
  value : ℚ
  description : String
  deriving DecidableEq, Repr

/-- One entry of `MarketSentiment.patterns`. -/
structure Pattern where
  name : String
  type : PatternType
  confidence : ℚ
  description : String
  deriving DecidableEq, Repr

/-- `interface MarketSentiment` (lines 45-66); the result of `getMarketSentiment`. -/
structure MarketSentiment where
  symbol : String
  overall : Overall
  score : ℚ
  signals : List Signal
  patterns : List Pattern
  summary : String
  timestamp : ℤ
  deriving DecidableEq, Repr

/-- `n.toFixed(0)` of ECMAScript on an exact rational: round to the nearest
integer, ties toward the larger magnitude-rounded value, sign re-attached
afterwards exactly as the ECMAScript algorithm does. -/
def toFixed0 (q : ℚ) : String :=
  (if q < 0 then "-" else "") ++ toString ⌊|q| + 1/2⌋

/-- `n.toFixed(1)` of ECMAScript on an exact rational (used only inside
human-readable description/summary strings). -/
def toFixed1 (q : ℚ) : String :=
  let n : ℤ := ⌊|q| * 10 + 1/2⌋
  (if q < 0 then "-" else "") ++ toString (n / 10) ++ "." ++ toString (n % 10)

/-- `Math.min(...l)`.  For an empty spread JavaScript yields `Infinity`,
which has no rational counterpart; the `0` default is only reachable for an
empty input list and no theorem below depends on that corner. -/
def listMin : List ℚ → ℚ
  | [] => 0
  | h :: t => t.foldl min h

/-- `Math.max(...l)`; same remark about the empty spread as `listMin`. -/
def listMax : List ℚ → ℚ
  | [] => 0
  | h :: t => t.foldl max h

/-- The `higherHighs` / `higherLows` loop of `detectPatterns` (lines 306-312):
`true` exactly when every element strictly exceeds its predecessor. -/
def strictAscending : List ℚ → Bool
  | [] => true
  | [_] => true
  | a :: b :: rest => decide (a < b) && strictAscending (b :: rest)

/-- `calculateSMA` (lines 115-119).  `prices.slice(-period)` is the trailing
window `drop (length - period)`; `prices[prices.length - 1] || 0` is the last
element, defaulting to `0` on the empty list. -/
def calculateSMA (prices : List ℚ) (period : ℕ) : ℚ :=
  if prices.length < period then prices.getLast?.getD 0
  else
    let slice := prices.drop (prices.length - period)
    slice.sum / period

/-- `calculateEMA` (lines 124-135): seeded with the SMA of the first `period`
prices, then updated forward over the remaining prices. -/
def calculateEMA (prices : List ℚ) (period : ℕ) : ℚ :=
  if prices.length < period then prices.getLast?.getD 0
  else
    let multiplier : ℚ := 2 / (period + 1)
    let seed := calculateSMA (prices.take period) period
    (prices.drop period).foldl (fun ema p => (p - ema) * multiplier + ema) seed

/-- `calculateRSI` (lines 140-159).  The loop runs over the last `period`
consecutive deltas, i.e. the consecutive differences of the trailing
`period + 1` prices; a delta `> 0` accrues to `gains`, otherwise its
negation accrues to `losses`. -/
def calculateRSI (prices : List ℚ) (period : ℕ) : ℚ :=
  if prices.length < period + 1 then 50
  else
    let window := prices.drop (prices.length - (period + 1))
    let changes := List.zipWith (fun a b => b - a) window window.tail
    let gains := (changes.map (fun change => if change > 0 then change else 0)).sum
    let losses := (changes.map (fun change => if change > 0 then 0 else -change)).sum
    let avgGain := gains / period
    let avgLoss := losses / period
    if avgLoss = 0 then 100
    else
      let rs := avgGain / avgLoss
      100 - 100 / (1 + rs)

/-- `calculateMACD` (lines 164-175): the signal line is the documented
`macd * 0.8` approximation, not a true 9-period EMA. -/
def calculateMACD (prices : List ℚ) : MACDValue :=
  let ema12 := calculateEMA prices 12
  let ema26 := calculateEMA prices 26
  let macd := ema12 - ema26
  let signal := macd * 0.8
  let histogram := macd - signal
  { macd := macd, signal := signal, histogram := histogram }

/-- `calculateBollingerBands` (lines 180-197); `sqrtQ` stands for `Math.sqrt`. -/
def calculateBollingerBands (sqrtQ : ℚ → ℚ) (prices : List ℚ) (period : ℕ) : BollingerValue :=
  let sma := calculateSMA prices period
  let slice := prices.drop (prices.length - period)
  let squaredDiffs := slice.map (fun p => ((p - sma) ^ 2 : ℚ))
  let variance := squaredDiffs.sum / (period : ℚ)
  let stdDev := sqrtQ variance
  { upper := sma + stdDev * 2, middle := sma, lower := sma - stdDev * 2 }

/-- `calculateATR` (lines 202-222).  The true-range loop indexes `highs[i]`,
`lows[i]`, `closes[i-1]` for `i ≥ 1`, i.e. zips the tails of the high/low
series against the un-shifted close series. -/
def calculateATR (highs lows closes : List ℚ) (period : ℕ) : ℚ :=
  if highs.length < period + 1 then 0
  else
    let trueRanges := List.zipWith
      (fun hl prevClose => max (hl.1 - hl.2) (max |hl.1 - prevClose| |hl.2 - prevClose|))
      (highs.tail.zip lows.tail) closes
    calculateSMA trueRanges period

/-- Golden Cross / Death Cross block of `detectPatterns` (lines 238-261):
guarded by `prices.length >= 200`; the source locals `prevSma50` and
`prevSma200` — the SMAs over `prices.slice(0, -1)` — are written inline. -/
def crossPatterns (prices : List ℚ) (sma50 sma200 : ℚ) : List Pattern :=
  if prices.length ≥ 200 then
    (if calculateSMA prices.dropLast 50 < calculateSMA prices.dropLast 200 ∧
        sma50 > sma200 then
      [{ name := "Golden Cross", type := PatternType.bullish, confidence := 85,
         description := "50 SMA crossed above 200 SMA - major bullish signal" }]
     else []) ++
    (if calculateSMA prices.dropLast 50 > calculateSMA prices.dropLast 200 ∧
        sma50 < sma200 then
      [{ name := "Death Cross", type := PatternType.bearish, confidence := 85,
         description := "50 SMA crossed below 200 SMA - major bearish signal" }]
     else [])
  else []

/-- Price-above/below-key-MAs block of `detectPatterns` (lines 264-278). -/
def trendPatterns (currentPrice sma50 sma200 : ℚ) : List Pattern :=
  if currentPrice > sma200 ∧ currentPrice > sma50 then
    [{ name := "Bullish Trend", type := PatternType.bullish, confidence := 70,
       description := "Price above both 50 and 200 SMA" }]
  else if currentPrice < sma200 ∧ currentPrice < sma50 then
    [{ name := "Bearish Trend", type := PatternType.bearish, confidence := 70,
       description := "Price below both 50 and 200 SMA" }]
  else []

/-- Support/Resistance block of `detectPatterns` (lines 281-300). -/
def supportResistancePatterns (currentPrice recentLow recentHigh : ℚ) : List Pattern :=
  (if currentPrice ≤ recentLow * 1.02 then
    [{ name := "Support Test", type := PatternType.bullish, confidence := 60,
       description := "Testing support at $" ++ toFixed0 recentLow }]
   else []) ++
  (if currentPrice ≥ recentHigh * 0.98 then
    [{ name := "Resistance Test", type := PatternType.bearish, confidence := 60,
       description := "Testing resistance at $" ++ toFixed0 recentHigh }]
   else [])

/-- Higher-highs/higher-lows block of `detectPatterns` (lines 303-321). -/
def uptrendPatterns (last5Highs last5Lows : List ℚ) : List Pattern :=
  if strictAscending last5Highs && strictAscending last5Lows then
    [{ name := "Uptrend Structure", type := PatternType.bullish, confidence := 75,
       description := "Higher highs and higher lows forming" }]
  else []

/-- `detectPatterns` (lines 227-324), assembled from its four blocks in
source order, the source locals written inline: `currentPrice` is
`prices[prices.length - 1]` (modelled `0` on the empty list),
`recentLow`/`recentHigh` are the min/max of the last 20 lows/highs, and the
last-5 windows feed the higher-highs/higher-lows loop.  The source also
computes an unused `sma20` here, omitted. -/
def detectPatterns (prices highs lows : List ℚ) : List Pattern :=
  crossPatterns prices (calculateSMA prices 50) (calculateSMA prices 200) ++
    trendPatterns (prices.getLast?.getD 0) (calculateSMA prices 50) (calculateSMA prices 200) ++
    supportResistancePatterns (prices.getLast?.getD 0) (listMin (lows.drop (lows.length - 20)))
      (listMax (highs.drop (highs.length - 20))) ++
    uptrendPatterns (highs.drop (highs.length - 5)) (lows.drop (lows.length - 5))

/-- RSI block of `generateSignals` (lines 333-354). -/
def rsiSignal (indicators : TechnicalIndicators) : Signal :=
  if indicators.rsi14 < 30 then
    { indicator := "RSI (14)", signal := SignalType.BUY, value := indicators.rsi14,
      description := "Oversold - potential bounce" }
  else if indicators.rsi14 > 70 then
    { indicator := "RSI (14)", signal := SignalType.SELL, value := indicators.rsi14,
      description := "Overbought - potential pullback" }
  else
    { indicator := "RSI (14)", signal := SignalType.NEUTRAL, value := indicators.rsi14,
      description := "Neutral zone" }

/-- MACD block of `generateSignals` (lines 357-378). -/
def macdSignal (indicators : TechnicalIndicators) : Signal :=
  if indicators.macd.histogram > 0 ∧ indicators.macd.macd > indicators.macd.signal then
    { indicator := "MACD", signal := SignalType.BUY, value := indicators.macd.histogram,
      description := "Bullish momentum" }
  else if indicators.macd.histogram < 0 then
    { indicator := "MACD", signal := SignalType.SELL, value := indicators.macd.histogram,
      description := "Bearish momentum" }
  else
    { indicator := "MACD", signal := SignalType.NEUTRAL, value := indicators.macd.histogram,
      description := "Neutral momentum" }

/-- Moving-average-alignment block of `generateSignals` (lines 381-402). -/
def maSignal (indicators : TechnicalIndicators) : Signal :=
  if indicators.price > indicators.sma20 ∧ indicators.sma20 > indicators.sma50 then
    { indicator := "MA Alignment", signal := SignalType.BUY, value := indicators.sma20,
      description := "Price > SMA20 > SMA50 - bullish alignment" }
  else if indicators.price < indicators.sma20 ∧ indicators.sma20 < indicators.sma50 then
    { indicator := "MA Alignment", signal := SignalType.SELL, value := indicators.sma20,
      description := "Price < SMA20 < SMA50 - bearish alignment" }
  else
    { indicator := "MA Alignment", signal := SignalType.NEUTRAL, value := indicators.sma20,
      description := "Mixed MA signals" }

/-- Bollinger block of `generateSignals` (lines 405-426). -/
def bollingerSignal (indicators : TechnicalIndicators) : Signal :=
  if indicators.price ≤ indicators.bollingerBands.lower then
    { indicator := "Bollinger Bands", signal := SignalType.BUY, value := indicators.price,
      description := "Price at lower band - oversold" }
  else if indicators.price ≥ indicators.bollingerBands.upper then
    { indicator := "Bollinger Bands", signal := SignalType.SELL, value := indicators.price,
      description := "Price at upper band - overbought" }
  else
    { indicator := "Bollinger Bands", signal := SignalType.NEUTRAL, value := indicators.price,
      description := "Price within bands" }

/-- Conditional volume block of `generateSignals` (lines 429-436): an entry
is pushed only when the volume ratio exceeds 2. -/
def volumeSignals (indicators : TechnicalIndicators) : List Signal :=
  if indicators.volumeRatio > 2 then
    [{ indicator := "Volume",
       signal := if indicators.price > indicators.sma20 then SignalType.BUY else SignalType.SELL,
       value := indicators.volumeRatio,
       description := "Volume " ++ toFixed1 indicators.volumeRatio ++ "x average - high activity" }]
  else []

/-- Conditional funding-rate block of `generateSignals` (lines 439-453):
strict comparisons against `-0.01` and `0.05`; no entry inside the band. -/
def fundingSignals (indicators : TechnicalIndicators) : List Signal :=
  if indicators.fundingRate < -0.01 then
    [{ indicator := "Funding Rate", signal := SignalType.BUY, value := indicators.fundingRate,
       description := "Negative funding - shorts paying longs" }]
  else if indicators.fundingRate > 0.05 then
    [{ indicator := "Funding Rate", signal := SignalType.SELL, value := indicators.fundingRate,
       description := "High positive funding - longs overleveraged" }]
  else []

/-- `generateSignals` (lines 329-456): the four unconditional entries in
source order, followed by the conditional volume and funding entries. -/
def generateSignals (indicators : TechnicalIndicators) : List Signal :=
  rsiSignal indicators :: macdSignal indicators :: maSignal indicators ::
    bollingerSignal indicators :: (volumeSignals indicators ++ fundingSignals indicators)

/-- `calculateSentimentScore` (lines 461-470): +20 per BUY, -20 per SELL,
then `Math.max(-100, Math.min(100, score))`. -/
def calculateSentimentScore (signals : List Signal) : ℚ :=
  let score := signals.foldl
    (fun score signal =>
      if signal.signal = SignalType.BUY then score + 20
      else if signal.signal = SignalType.SELL then score - 20
      else score) 0
  max (-100) (min 100 score)

/-- The pattern-influence accumulation of `getMarketSentiment`
(lines 521-525): bullish adds `confidence * 0.2`, bearish subtracts it. -/
def patternScore (patterns : List Pattern) : ℚ :=
  patterns.foldl
    (fun acc p =>
      if p.type = PatternType.bullish then acc + p.confidence * 0.2
      else if p.type = PatternType.bearish then acc - p.confidence * 0.2
      else acc) 0

/-- `overall.replace("_", " ")` used when building the summary (line 542). -/
def overallText : Overall → String
  | Overall.STRONG_BUY => "STRONG BUY"
  | Overall.BUY => "BUY"
  | Overall.NEUTRAL => "NEUTRAL"
  | Overall.SELL => "SELL"
  | Overall.STRONG_SELL => "STRONG SELL"

/-- The pure computation inside `getMarketSentiment` (lines 475-558).  The
network fetch and the TTL cache wrapper are external collaborators: `ohlcv`
is the already-fetched candle series and `now` is the clock reading
`Date.now()` stamped on the result.  `sqrtQ` abstracts `Math.sqrt` (used
only by the Bollinger calculator). -/
def evaluate (sqrtQ : ℚ → ℚ) (symbol : String) (ohlcv : List Candle) (now : ℤ) :
    MarketSentiment :=
  if ohlcv.length < 50 then
    { symbol := symbol, overall := Overall.NEUTRAL, score := 0, signals := [], patterns := [],
      summary := "Insufficient data for analysis", timestamp := now }
  else
    let closes := ohlcv.map Candle.close
    let highs := ohlcv.map Candle.high
    let lows := ohlcv.map Candle.low
    let volumes := ohlcv.map Candle.volume
    let currentPrice := closes.getLast?.getD 0
    let indicators : TechnicalIndicators :=
      { symbol := symbol
        price := currentPrice
        sma20 := calculateSMA closes 20
        sma50 := calculateSMA closes 50
        sma200 := calculateSMA closes 200
        ema12 := calculateEMA closes 12
        ema26 := calculateEMA closes 26
        rsi14 := calculateRSI closes 14
        macd := calculateMACD closes
        atr14 := calculateATR highs lows closes 14
        bollingerBands := calculateBollingerBands sqrtQ closes 20
        volumeSma20 := calculateSMA volumes 20
        volumeRatio := volumes.getLast?.getD 0 / calculateSMA volumes 20
        fundingRate := 0
        openInterest := 0 }
    let signals := generateSignals indicators
    let patterns := detectPatterns closes highs lows
    let score := calculateSentimentScore signals
    let finalScore := max (-100) (min 100 (score + patternScore patterns))
    let overall : Overall :=
      if finalScore ≥ 60 then Overall.STRONG_BUY
      else if finalScore ≥ 20 then Overall.BUY
      else if finalScore ≤ -60 then Overall.STRONG_SELL
      else if finalScore ≤ -20 then Overall.SELL
      else Overall.NEUTRAL
    let buySignals := (signals.filter (fun s => s.signal = SignalType.BUY)).length
    let sellSignals := (signals.filter (fun s => s.signal = SignalType.SELL)).length
    let bullishPatterns := (patterns.filter (fun p => p.type = PatternType.bullish)).length
    let bearishPatterns := (patterns.filter (fun p => p.type = PatternType.bearish)).length
    let summary := symbol ++ " is " ++ overallText overall ++ ". "
    let summary := summary ++ toString buySignals ++ " buy signals, " ++
      toString sellSignals ++ " sell signals. "
    let summary := if bullishPatterns > 0 then
      summary ++ toString bullishPatterns ++ " bullish pattern(s). " else summary
    let summary := if bearishPatterns > 0 then
      summary ++ toString bearishPatterns ++ " bearish pattern(s). " else summary
    let summary := summary ++ "RSI: " ++ toFixed1 indicators.rsi14 ++
      ", Price vs SMA200: " ++ toFixed1 ((currentPrice / indicators.sma200 - 1) * 100) ++ "%"
    { symbol := symbol, overall := overall, score := finalScore, signals := signals,
      patterns := patterns, summary := summary, timestamp := now }

/-- Concrete indicator record used to exercise `macd_signal_sign` below. -/
def macdWitnessIndicators : TechnicalIndicators :=
  { symbol := "BTC", price := 0, sma20 := 0, sma50 := 0, sma200 := 0, ema12 := 0, ema26 := 0,
    rsi14 := 0, macd := calculateMACD [], atr14 := 0,
    bollingerBands := { upper := 0, middle := 0, lower := 0 },
    volumeSma20 := 0, volumeRatio := 0, fundingRate := 0, openInterest := 0 }

/-- Concrete indicator record with funding rate `-0.011`, used to exercise
`funding_signal_iff` below. -/
def fundingWitnessIndicators : TechnicalIndicators :=
  { symbol := "BTC", price := 0, sma20 := 0, sma50 := 0, sma200 := 0, ema12 := 0, ema26 := 0,
    rsi14 := 50, macd := { macd := 0, signal := 0, histogram := 0 }, atr14 := 0,
    bollingerBands := { upper := 0, middle := 0, lower := 0 },
    volumeSma20 := 0, volumeRatio := 0, fundingRate := -0.011, openInterest := 0 }

/-- C1: a candle series shorter than 50 short-circuits `getMarketSentiment`
into the fixed insufficient-data result: NEUTRAL, score 0, empty signal and
pattern lists, the fixed summary text, and the current timestamp. -/
theorem evaluate_short_series (sqrtQ : ℚ → ℚ) (symbol : String) (ohlcv : List Candle) (now : ℤ)
    (h : ohlcv.length < 50) :
    evaluate sqrtQ symbol ohlcv now =
      { symbol := symbol, overall := Overall.NEUTRAL, score := 0, signals := [], patterns := [],
        summary := "Insufficient data for analysis", timestamp := now } := by
  unfold evaluate
  rw [if_pos h]

theorem evaluate_short_series_witness :
    ([] : List Candle).length < 50 ∧
    evaluate id "BTC" [] 0 =
      { symbol := "BTC", overall := Overall.NEUTRAL, score := 0, signals := [], patterns := [],
        summary := "Insufficient data for analysis", timestamp := 0 } :=
  ⟨by decide, evaluate_short_series id "BTC" [] 0 (by decide)⟩

/-- C8: the sentiment evaluation is deterministic.  The embedding makes the
only two effects of `getMarketSentiment` explicit inputs — the fetched
candle series and the `Date.now()` clock reading — and shows the result is
a function of them alone: every field except `timestamp` is independent of
the clock, `timestamp` is exactly the clock reading, and two invocations
observing the same inputs (including the clock) yield identical results. -/
theorem evaluate_deterministic (sqrtQ : ℚ → ℚ) (symbol : String) (ohlcv : List Candle)
    (t t' : ℤ) :
    (evaluate sqrtQ symbol ohlcv t).symbol = (evaluate sqrtQ symbol ohlcv t').symbol ∧
    (evaluate sqrtQ symbol ohlcv t).overall = (evaluate sqrtQ symbol ohlcv t').overall ∧
    (evaluate sqrtQ symbol ohlcv t).score = (evaluate sqrtQ symbol ohlcv t').score ∧
    (evaluate sqrtQ symbol ohlcv t).signals = (evaluate sqrtQ symbol ohlcv t').signals ∧
    (evaluate sqrtQ symbol ohlcv t).patterns = (evaluate sqrtQ symbol ohlcv t').patterns ∧
    (evaluate sqrtQ symbol ohlcv t).summary = (evaluate sqrtQ symbol ohlcv t').summary ∧
    (evaluate sqrtQ symbol ohlcv t).timestamp = t ∧
    (t = t' → evaluate sqrtQ symbol ohlcv t = evaluate sqrtQ symbol ohlcv t') := by
  have key : ∀ τ τ' : ℤ, evaluate sqrtQ symbol ohlcv τ =
      { evaluate sqrtQ symbol ohlcv τ' with timestamp := τ } := by
    intro τ τ'
    unfold evaluate
    split_ifs <;> rfl
  refine ⟨?_, ?_, ?_, ?_, ?_, ?_, ?_, fun h => by rw [h]⟩ <;> rw [key t t']

theorem evaluate_deterministic_witness :
    (0 : ℤ) = 0 ∧ evaluate id "BTC" [] 0 = evaluate id "BTC" [] 0 :=
  ⟨rfl, (evaluate_deterministic id "BTC" [] 0 0).2.2.2.2.2.2.2 rfl⟩

/-- C4: for a positive period, `calculateSMA` returns the arithmetic mean of
the last `period` elements when enough data is present, the last element of
a non-empty shorter series, and `0` on the empty series. -/
theorem calculateSMA_spec (values : List ℚ) (period : ℕ) (hp : 0 < period) :
    (period ≤ values.length →
      calculateSMA values period = (values.reverse.take period).sum / period) ∧
    (∀ h : values ≠ [], values.length < period → calculateSMA values period = values.getLast h) ∧
    (values = [] → calculateSMA values period = 0) := by
  refine ⟨?_, ?_, ?_⟩
  · intro hle
    unfold calculateSMA
    rw [if_neg (by omega)]
    have h1 : (values.reverse.take period).reverse = values.drop (values.length - period) := by
      simpa using (List.reverse_take (l := values.reverse) (n := period))
    have h2 : (values.drop (values.length - period)).sum = (values.reverse.take period).sum := by
      rw [← h1, List.sum_reverse]
    simp only [h2]
  · intro h hlt
    unfold calculateSMA
    rw [if_pos hlt, List.getLast?_eq_getLast_of_ne_nil h]
    rfl
  · rintro rfl
    simp [calculateSMA, hp]

theorem calculateSMA_spec_witness :
    0 < 3 ∧
    ((3 ≤ ([5] : List ℚ).length →
      calculateSMA [5] 3 = (([5] : List ℚ).reverse.take 3).sum / ((3 : ℕ) : ℚ)) ∧
     (∀ h : ([5] : List ℚ) ≠ [], ([5] : List ℚ).length < 3 →
      calculateSMA [5] 3 = ([5] : List ℚ).getLast h) ∧
     (([5] : List ℚ) = [] → calculateSMA [5] 3 = 0)) :=
  ⟨by decide, calculateSMA_spec [5] 3 (by decide)⟩

theorem signal_foldl_count (l : List Signal) (a : ℚ) :
    l.foldl
      (fun score signal =>
        if signal.signal = SignalType.BUY then score + 20
        else if signal.signal = SignalType.SELL then score - 20
        else score) a
    = a + 20 * (l.countP (fun s => s.signal = SignalType.BUY) : ℚ)
        - 20 * (l.countP (fun s => s.signal = SignalType.SELL) : ℚ) := by
  induction l generalizing a with
  | nil => simp
  | cons s t ih =>
    cases hs : s.signal <;>
      simp only [List.foldl_cons, List.countP_cons, hs, ih, decide_eq_true_eq] <;>
      norm_num <;> push_cast <;> ring

theorem patternScore_eq_sum (patterns : List Pattern) :
    patternScore patterns = (patterns.map (fun p =>
      if p.type = PatternType.bullish then p.confidence * 0.2
      else if p.type = PatternType.bearish then -(p.confidence * 0.2) else 0)).sum := by
  have aux : ∀ (l : List Pattern) (a : ℚ),
      l.foldl
        (fun acc p =>
          if p.type = PatternType.bullish then acc + p.confidence * 0.2
          else if p.type = PatternType.bearish then acc - p.confidence * 0.2
          else acc) a
      = a + (l.map (fun p =>
          if p.type = PatternType.bullish then p.confidence * 0.2
          else if p.type = PatternType.bearish then -(p.confidence * 0.2) else 0)).sum := by
    intro l
    induction l with
    | nil => intro a; simp
    | cons p t ih =>
      intro a
      cases hp : p.type <;> simp [ih, hp] <;> ring
  simpa [patternScore] using aux patterns 0

theorem clamp_mem (q : ℚ) : -100 ≤ max (-100) (min 100 q) ∧ max (-100) (min 100 q) ≤ 100 :=
  ⟨le_max_left _ _, max_le (by norm_num) (min_le_left _ _)⟩

/-- C2: the sentiment score pipeline — the per-signal base score is
`20·#BUY − 20·#SELL` clamped to `[-100, 100]`, the pattern delta
`± confidence·0.2` is added to that clamped base, the combined total is
clamped again, and consequently the score of every evaluation lies in
`[-100, 100]` for arbitrary signal and pattern lists. -/
theorem sentiment_score_clamped (signals : List Signal) (patterns : List Pattern)
    (sqrtQ : ℚ → ℚ) (symbol : String) (ohlcv : List Candle) (now : ℤ) :
    calculateSentimentScore signals =
      max (-100) (min 100 (20 * (signals.countP (fun s => s.signal = SignalType.BUY) : ℚ)
        - 20 * (signals.countP (fun s => s.signal = SignalType.SELL) : ℚ))) ∧
    patternScore patterns = (patterns.map (fun p =>
      if p.type = PatternType.bullish then p.confidence * 0.2
      else if p.type = PatternType.bearish then -(p.confidence * 0.2) else 0)).sum ∧
    -100 ≤ max (-100) (min 100 (calculateSentimentScore signals + patternScore patterns)) ∧
    max (-100) (min 100 (calculateSentimentScore signals + patternScore patterns)) ≤ 100 ∧
    -100 ≤ (evaluate sqrtQ symbol ohlcv now).score ∧
    (evaluate sqrtQ symbol ohlcv now).score ≤ 100 := by
  have hbase : calculateSentimentScore signals =
      max (-100) (min 100 (20 * (signals.countP (fun s => s.signal = SignalType.BUY) : ℚ)
        - 20 * (signals.countP (fun s => s.signal = SignalType.SELL) : ℚ))) := by
    unfold calculateSentimentScore
    rw [signal_foldl_count]
    norm_num
  have hscore : -100 ≤ (evaluate sqrtQ symbol ohlcv now).score ∧
      (evaluate sqrtQ symbol ohlcv now).score ≤ 100 := by
    unfold evaluate
    by_cases h : ohlcv.length < 50
    · rw [if_pos h]
      norm_num
    · rw [if_neg h]
      exact clamp_mem _
  exact ⟨hbase, patternScore_eq_sum patterns, (clamp_mem _).1, (clamp_mem _).2,
    hscore.1, hscore.2⟩

theorem sum_nonneg_eq_zero_iff (l : List ℚ) :
    (∀ x ∈ l, 0 ≤ x) → (l.sum = 0 ↔ ∀ x ∈ l, x = 0) := by
  induction l with
  | nil => intro _; simp
  | cons x t ih =>
    intro h
    have hx : 0 ≤ x := h x (List.mem_cons_self x t)
    have ht : ∀ y ∈ t, 0 ≤ y := fun y hy => h y (List.mem_cons_of_mem x hy)
    have hts : 0 ≤ t.sum := List.sum_nonneg ht
    rw [List.sum_cons]
    constructor
    · intro hsum
      have hx0 : x = 0 := by linarith
      have hsum0 : t.sum = 0 := by linarith
      intro y hy
      rcases List.mem_cons.mp hy with rfl | hy'
      · exact hx0
      · exact ((ih ht).mp hsum0) y hy'
    · intro hall
      have hx0 : x = 0 := hall x (List.mem_cons_self x t)
      have ht0 : t.sum = 0 := (ih ht).mpr (fun y hy => hall y (List.mem_cons_of_mem x hy))
      rw [hx0, ht0, add_zero]

/-- C3 (amended): `calculateRSI` always lies in `[0, 100]`, and on a series
of at least 15 prices it equals 100 exactly when all 14 sampled deltas of
the trailing window are non-negative.  (The source returns 100 whenever
`avgLoss = 0`, which includes the all-deltas-zero flat window, so the
"at least one strictly positive delta" part of the original claim fails —
see the counterexample.) -/
theorem calculateRSI_range (prices : List ℚ) :
    (0 ≤ calculateRSI prices 14 ∧ calculateRSI prices 14 ≤ 100) ∧
    (15 ≤ prices.length →
      (calculateRSI prices 14 = 100 ↔
        ∀ c ∈ List.zipWith (fun a b => b - a) (prices.drop (prices.length - 15))
          (prices.drop (prices.length - 15)).tail, 0 ≤ c)) := by
  by_cases hlen : prices.length < 14 + 1
  · unfold calculateRSI
    rw [if_pos hlen]
    exact ⟨⟨by norm_num, by norm_num⟩, fun h15 => absurd h15 (by omega)⟩
  · unfold calculateRSI
    rw [if_neg hlen]
    dsimp only
    set w := prices.drop (prices.length - (14 + 1)) with hw
    set cs := List.zipWith (fun a b => b - a) w w.tail with hcs
    set gains := (cs.map (fun change => if change > 0 then change else 0)).sum with hgains
    set losses := (cs.map (fun change => if change > 0 then 0 else -change)).sum with hlosses
    have hg : 0 ≤ gains := by
      refine List.sum_nonneg ?_
      intro x hx
      obtain ⟨c, _, rfl⟩ := List.mem_map.mp hx
      split_ifs with h
      · exact le_of_lt h
      · exact le_refl 0
    have hl : 0 ≤ losses := by
      refine List.sum_nonneg ?_
      intro x hx
      obtain ⟨c, _, rfl⟩ := List.mem_map.mp hx
      split_ifs with h
      · exact le_refl 0
      · simpa using le_of_not_lt h
    have hlosses_iff : losses = 0 ↔ ∀ c ∈ cs, 0 ≤ c := by
      rw [sum_nonneg_eq_zero_iff]
      · constructor
        · intro hall c hc
          have := hall (if c > 0 then 0 else -c) (List.mem_map_of_mem _ hc)
          by_cases hcpos : c > 0
          · exact le_of_lt hcpos
          · rw [if_neg hcpos] at this
            simp only [neg_eq_zero] at this
            exact le_of_eq this.symm
        · intro hall x hx
          obtain ⟨c, hc, rfl⟩ := List.mem_map.mp hx
          split_ifs with h
          · rfl
          · have h1 : 0 ≤ c := hall c hc
            have h2 : c ≤ 0 := le_of_not_lt h
            have : c = 0 := le_antisymm h2 h1
            rw [this, neg_zero]
      · intro x hx
        obtain ⟨c, _, rfl⟩ := List.mem_map.mp hx
        split_ifs with h
        · exact le_refl 0
        · simpa using le_of_not_lt h
    have hwindow : prices.length - (14 + 1) = prices.length - 15 := by norm_num
    rw [hwindow] at hw
    by_cases hL : losses / ((14 : ℕ) : ℚ) = 0
    · rw [if_pos hL]
      have hlosses0 : losses = 0 := by
        rcases div_eq_zero_iff.mp hL with h | h
        · exact h
        · norm_num at h
      refine ⟨⟨by norm_num, le_refl _⟩, fun _ => ?_⟩
      exact ⟨fun _ => hlosses_iff.mp hlosses0, fun _ => rfl⟩
    · rw [if_neg hL]
      have hLnn : 0 ≤ losses / ((14 : ℕ) : ℚ) := div_nonneg hl (by norm_num)
      have hLpos : 0 < losses / ((14 : ℕ) : ℚ) := lt_of_le_of_ne hLnn (Ne.symm hL)
      have hrs : 0 ≤ gains / ((14 : ℕ) : ℚ) / (losses / ((14 : ℕ) : ℚ)) :=
        div_nonneg (div_nonneg hg (by norm_num)) (le_of_lt hLpos)
      have h1rs : 0 < 1 + gains / ((14 : ℕ) : ℚ) / (losses / ((14 : ℕ) : ℚ)) := by linarith
      have hdivpos : 0 < 100 / (1 + gains / ((14 : ℕ) : ℚ) / (losses / ((14 : ℕ) : ℚ))) :=
        div_pos (by norm_num) h1rs
      have hdivle : 100 / (1 + gains / ((14 : ℕ) : ℚ) / (losses / ((14 : ℕ) : ℚ))) ≤ 100 := by
        rw [div_le_iff₀ h1rs]
        nlinarith
      refine ⟨⟨by linarith, by linarith⟩, fun _ => ?_⟩
      constructor
      · intro h100
        exfalso
        have : 100 / (1 + gains / ((14 : ℕ) : ℚ) / (losses / ((14 : ℕ) : ℚ))) = 0 := by
          linarith
        linarith
      · intro hall
        exact absurd (by rw [hlosses_iff.mpr hall]; norm_num) hL

/-- C3 counterexample: on a flat 15-price series every sampled delta is
zero — none is strictly positive — yet `calculateRSI` still returns 100,
because the source returns 100 whenever the loss average is zero.  This
refutes the original "and at least one of them is strictly positive"
half of the claim. -/
theorem calculateRSI_flat_counterexample :
    calculateRSI [1, 1, 1, 1, 1, 1, 1, 1, 1, 1, 1, 1, 1, 1, 1] 14 = 100 ∧
    (List.zipWith (fun a b => b - a)
        (([1, 1, 1, 1, 1, 1, 1, 1, 1, 1, 1, 1, 1, 1, 1] : List ℚ).drop
          (([1, 1, 1, 1, 1, 1, 1, 1, 1, 1, 1, 1, 1, 1, 1] : List ℚ).length - 15))
        ((([1, 1, 1, 1, 1, 1, 1, 1, 1, 1, 1, 1, 1, 1, 1] : List ℚ).drop
          (([1, 1, 1, 1, 1, 1, 1, 1, 1, 1, 1, 1, 1, 1, 1] : List ℚ).length - 15)).tail)).countP
      (fun c => decide (0 < c)) = 0 := by
  constructor
  · norm_num [calculateRSI]
  · norm_num [List.countP_cons]

theorem calculateRSI_range_witness :
    15 ≤ ([1, 2, 3, 4, 5, 6, 7, 8, 9, 10, 11, 12, 13, 14, 15] : List ℚ).length ∧
    (calculateRSI [1, 2, 3, 4, 5, 6, 7, 8, 9, 10, 11, 12, 13, 14, 15] 14 = 100 ↔
      ∀ c ∈ List.zipWith (fun a b => b - a)
        (([1, 2, 3, 4, 5, 6, 7, 8, 9, 10, 11, 12, 13, 14, 15] : List ℚ).drop
          (([1, 2, 3, 4, 5, 6, 7, 8, 9, 10, 11, 12, 13, 14, 15] : List ℚ).length - 15))
        ((([1, 2, 3, 4, 5, 6, 7, 8, 9, 10, 11, 12, 13, 14, 15] : List ℚ).drop
          (([1, 2, 3, 4, 5, 6, 7, 8, 9, 10, 11, 12, 13, 14, 15] : List ℚ).length - 15)).tail),
        0 ≤ c) :=
  ⟨by decide, (calculateRSI_range [1, 2, 3, 4, 5, 6, 7, 8, 9, 10, 11, 12, 13, 14, 15]).2
    (by decide)⟩

/-- C9: because the MACD signal line is `macd * 0.8`, the histogram always
equals `macd * 0.2`, and the generated MACD trading signal (the second
entry of `generateSignals`) collapses to the sign of `macd`: BUY iff
`macd > 0`, SELL iff `macd < 0`, NEUTRAL iff `macd = 0`. -/
theorem macd_signal_sign (prices : List ℚ) (indicators : TechnicalIndicators)
    (h : indicators.macd = calculateMACD prices) :
    (calculateMACD prices).histogram = (calculateMACD prices).macd * 0.2 ∧
    (calculateMACD prices).signal = (calculateMACD prices).macd * 0.8 ∧
    (generateSignals indicators)[1]? = some (macdSignal indicators) ∧
    ((macdSignal indicators).signal = SignalType.BUY ↔ 0 < (calculateMACD prices).macd) ∧
    ((macdSignal indicators).signal = SignalType.SELL ↔ (calculateMACD prices).macd < 0) ∧
    ((macdSignal indicators).signal = SignalType.NEUTRAL ↔ (calculateMACD prices).macd = 0) := by
  have hhist : (calculateMACD prices).histogram = (calculateMACD prices).macd * 0.2 := by
    unfold calculateMACD
    ring
  have hsig : (calculateMACD prices).signal = (calculateMACD prices).macd * 0.8 := rfl
  set m := (calculateMACD prices).macd with hm
  have hist' : indicators.macd.histogram = m * 0.2 := by rw [h]; exact hhist
  have sig' : indicators.macd.signal = m * 0.8 := by rw [h]; exact hsig
  have macd' : indicators.macd.macd = m := by rw [h]
  have hcond1 : (indicators.macd.histogram > 0 ∧
      indicators.macd.macd > indicators.macd.signal) ↔ 0 < m := by
    rw [hist', macd', sig']
    constructor
    · rintro ⟨h1, _⟩; linarith
    · intro h1; constructor <;> linarith
  have hcond2 : (indicators.macd.histogram < 0) ↔ m < 0 := by
    rw [hist']
    constructor <;> intro h1 <;> linarith
  refine ⟨hhist, hsig, rfl, ?_, ?_, ?_⟩
  · constructor
    · intro hbuy
      unfold macdSignal at hbuy
      split_ifs at hbuy with h1 h2
      exact hcond1.mp h1
    · intro h0m
      unfold macdSignal
      rw [if_pos (hcond1.mpr h0m)]
  · constructor
    · intro hsell
      unfold macdSignal at hsell
      split_ifs at hsell with h1 h2
      exact hcond2.mp h2
    · intro hm0
      have hnc1 : ¬(indicators.macd.histogram > 0 ∧
          indicators.macd.macd > indicators.macd.signal) :=
        fun hc => absurd (hcond1.mp hc) (not_lt.mpr (le_of_lt hm0))
      unfold macdSignal
      rw [if_neg hnc1, if_pos (hcond2.mpr hm0)]
  · constructor
    · intro hneu
      unfold macdSignal at hneu
      split_ifs at hneu with h1 h2
      have hn1 : ¬ 0 < m := fun hx => h1 (hcond1.mpr hx)
      have hn2 : ¬ m < 0 := fun hx => h2 (hcond2.mpr hx)
      linarith
    · intro hm0
      have hn1 : ¬(indicators.macd.histogram > 0 ∧
          indicators.macd.macd > indicators.macd.signal) :=
        fun hc => absurd (hcond1.mp hc) (by rw [hm0]; exact lt_irrefl 0)
      have hn2 : ¬(indicators.macd.histogram < 0) :=
        fun hc => absurd (hcond2.mp hc) (by rw [hm0]; exact lt_irrefl 0)
      unfold macdSignal
      rw [if_neg hn1, if_neg hn2]

theorem macd_signal_sign_witness :
    macdWitnessIndicators.macd = calculateMACD [] ∧
    ((macdSignal macdWitnessIndicators).signal = SignalType.NEUTRAL ↔
      (calculateMACD []).macd = 0) :=
  ⟨rfl, (macd_signal_sign [] macdWitnessIndicators rfl).2.2.2.2.2⟩

theorem indicator_rsiSignal (i : TechnicalIndicators) :
    (rsiSignal i).indicator = "RSI (14)" := by
  unfold rsiSignal
  split_ifs <;> rfl

theorem indicator_macdSignal (i : TechnicalIndicators) :
    (macdSignal i).indicator = "MACD" := by
  unfold macdSignal
  split_ifs <;> rfl

theorem indicator_maSignal (i : TechnicalIndicators) :
    (maSignal i).indicator = "MA Alignment" := by
  unfold maSignal
  split_ifs <;> rfl

theorem indicator_bollingerSignal (i : TechnicalIndicators) :
    (bollingerSignal i).indicator = "Bollinger Bands" := by
  unfold bollingerSignal
  split_ifs <;> rfl

theorem indicator_volumeSignals (i : TechnicalIndicators) :
    ∀ s ∈ volumeSignals i, s.indicator = "Volume" := by
  intro s hs
  unfold volumeSignals at hs
  split_ifs at hs <;>
    first
      | (rw [List.mem_singleton] at hs; subst hs; rfl)
      | simp at hs

theorem indicator_fundingSignals (i : TechnicalIndicators) :
    ∀ s ∈ fundingSignals i, s.indicator = "Funding Rate" := by
  intro s hs
  unfold fundingSignals at hs
  split_ifs at hs
  · rw [List.mem_singleton] at hs
    subst hs
    rfl
  · rw [List.mem_singleton] at hs
    subst hs
    rfl
  · simp at hs

theorem mem_generateSignals (i : TechnicalIndicators) (s : Signal) :
    s ∈ generateSignals i ↔
      s = rsiSignal i ∨ s = macdSignal i ∨ s = maSignal i ∨ s = bollingerSignal i ∨
        s ∈ volumeSignals i ∨ s ∈ fundingSignals i := by
  simp [generateSignals, List.mem_cons, List.mem_append]

theorem funding_entry_mem (i : TechnicalIndicators) (s : Signal) :
    (s ∈ generateSignals i ∧ s.indicator = "Funding Rate") ↔ s ∈ fundingSignals i := by
  constructor
  · rintro ⟨hm, hn⟩
    rcases (mem_generateSignals i s).mp hm with rfl | rfl | rfl | rfl | hv | hf
    · rw [indicator_rsiSignal] at hn
      exact absurd hn (by decide)
    · rw [indicator_macdSignal] at hn
      exact absurd hn (by decide)
    · rw [indicator_maSignal] at hn
      exact absurd hn (by decide)
    · rw [indicator_bollingerSignal] at hn
      exact absurd hn (by decide)
    · rw [indicator_volumeSignals i s hv] at hn
      exact absurd hn (by decide)
    · exact hf
  · intro hf
    exact ⟨(mem_generateSignals i s).mpr
        (Or.inr (Or.inr (Or.inr (Or.inr (Or.inr hf))))),
      indicator_fundingSignals i s hf⟩

/-- C7: the funding-rate rule uses strict comparisons against the band
`[-0.01, 0.05]`: a Funding BUY entry exists iff `fundingRate < -0.01`, a
Funding SELL entry exists iff `fundingRate > 0.05`, and some Funding entry
exists iff the rate is strictly outside the band (so `-0.01` itself yields
no Funding signal while `-0.011` yields a BUY). -/
theorem funding_signal_iff (indicators : TechnicalIndicators) :
    ((∃ s ∈ generateSignals indicators, s.indicator = "Funding Rate" ∧
        s.signal = SignalType.BUY) ↔ indicators.fundingRate < -0.01) ∧
    ((∃ s ∈ generateSignals indicators, s.indicator = "Funding Rate" ∧
        s.signal = SignalType.SELL) ↔ indicators.fundingRate > 0.05) ∧
    ((∃ s ∈ generateSignals indicators, s.indicator = "Funding Rate") ↔
      (indicators.fundingRate < -0.01 ∨ indicators.fundingRate > 0.05)) := by
  have existsBUY : (∃ s ∈ generateSignals indicators, s.indicator = "Funding Rate" ∧
      s.signal = SignalType.BUY) ↔ indicators.fundingRate < -0.01 := by
    constructor
    · rintro ⟨s, hm, hind, hsig⟩
      have hf := (funding_entry_mem indicators s).mp ⟨hm, hind⟩
      unfold fundingSignals at hf
      split_ifs at hf with ha hb
      · exact ha
      · rw [List.mem_singleton] at hf
        subst hf
        simp at hsig
      · simp at hf
    · intro ha
      refine ⟨{ indicator := "Funding Rate", signal := SignalType.BUY,
                value := indicators.fundingRate,
                description := "Negative funding - shorts paying longs" }, ?_, rfl, rfl⟩
      refine ((funding_entry_mem indicators _).mpr ?_).1
      unfold fundingSignals
      rw [if_pos ha]
      exact List.mem_singleton_self _
  have existsSELL : (∃ s ∈ generateSignals indicators, s.indicator = "Funding Rate" ∧
      s.signal = SignalType.SELL) ↔ indicators.fundingRate > 0.05 := by
    constructor
    · rintro ⟨s, hm, hind, hsig⟩
      have hf := (funding_entry_mem indicators s).mp ⟨hm, hind⟩
      unfold fundingSignals at hf
      split_ifs at hf with ha hb
      · rw [List.mem_singleton] at hf
        subst hf
        simp at hsig
      · exact hb
      · simp at hf
    · intro hb
      have hna : ¬(indicators.fundingRate < -0.01) := by linarith
      refine ⟨{ indicator := "Funding Rate", signal := SignalType.SELL,
                value := indicators.fundingRate,
                description := "High positive funding - longs overleveraged" }, ?_, rfl, rfl⟩
      refine ((funding_entry_mem indicators _).mpr ?_).1
      unfold fundingSignals
      rw [if_neg hna, if_pos hb]
      exact List.mem_singleton_self _
  refine ⟨existsBUY, existsSELL, ?_⟩
  constructor
  · rintro ⟨s, hm, hind⟩
    have hf := (funding_entry_mem indicators s).mp ⟨hm, hind⟩
    unfold fundingSignals at hf
    split_ifs at hf with ha hb
    · exact Or.inl ha
    · exact Or.inr hb
    · simp at hf
  · rintro (ha | hb)
    · obtain ⟨s, hm, hind, _⟩ := existsBUY.mpr ha
      exact ⟨s, hm, hind⟩
    · obtain ⟨s, hm, hind, _⟩ := existsSELL.mpr hb
      exact ⟨s, hm, hind⟩

theorem funding_signal_iff_witness :
    ((-0.011 : ℚ) < -0.01) ∧
    (∃ s ∈ generateSignals fundingWitnessIndicators, s.indicator = "Funding Rate" ∧
      s.signal = SignalType.BUY) :=
  ⟨by norm_num,
    (funding_signal_iff fundingWitnessIndicators).1.mpr (by norm_num [fundingWitnessIndicators])⟩

theorem filter_trendPatterns (c a b : ℚ) (nm : String)
    (h1 : nm ≠ "Bullish Trend") (h2 : nm ≠ "Bearish Trend") :
    (trendPatterns c a b).filter (fun e => e.name = nm) = [] := by
  unfold trendPatterns
  split_ifs <;> simp [List.filter_cons, List.filter_nil, Ne.symm h1, Ne.symm h2]

theorem filter_supportResistancePatterns (c lo hi : ℚ) (nm : String)
    (h1 : nm ≠ "Support Test") (h2 : nm ≠ "Resistance Test") :
    (supportResistancePatterns c lo hi).filter (fun e => e.name = nm) = [] := by
  unfold supportResistancePatterns
  split_ifs <;>
    simp [List.filter_append, List.filter_cons, List.filter_nil, Ne.symm h1, Ne.symm h2]

theorem filter_uptrendPatterns (a b : List ℚ) (nm : String)
    (h : nm ≠ "Uptrend Structure") :
    (uptrendPatterns a b).filter (fun e => e.name = nm) = [] := by
  unfold uptrendPatterns
  split_ifs <;> simp [List.filter_cons, List.filter_nil, Ne.symm h]

theorem filter_crossPatterns_other (p : List ℚ) (a b : ℚ) (nm : String)
    (h1 : nm ≠ "Golden Cross") (h2 : nm ≠ "Death Cross") :
    (crossPatterns p a b).filter (fun e => e.name = nm) = [] := by
  unfold crossPatterns
  split_ifs <;>
    simp [List.filter_append, List.filter_cons, List.filter_nil, Ne.symm h1, Ne.symm h2]

theorem filter_crossPatterns_gc (p : List ℚ) (a b : ℚ) :
    (crossPatterns p a b).filter (fun e => e.name = "Golden Cross") =
      (if p.length ≥ 200 ∧
          calculateSMA p.dropLast 50 < calculateSMA p.dropLast 200 ∧ a > b then
        [{ name := "Golden Cross", type := PatternType.bullish, confidence := 85,
           description := "50 SMA crossed above 200 SMA - major bullish signal" }]
      else []) := by
  unfold crossPatterns
  by_cases hL : p.length ≥ 200
  · rw [if_pos hL]
    by_cases hc : calculateSMA p.dropLast 50 < calculateSMA p.dropLast 200 ∧ a > b
    · have hd : ¬(calculateSMA p.dropLast 50 > calculateSMA p.dropLast 200 ∧ a < b) :=
        fun hh => absurd hh.1 (not_lt.mpr (le_of_lt hc.1))
      rw [if_pos hc, if_neg hd, if_pos ⟨hL, hc.1, hc.2⟩]
      simp [List.filter_append, List.filter_cons, List.filter_nil]
    · have hrhs : ¬(p.length ≥ 200 ∧
          calculateSMA p.dropLast 50 < calculateSMA p.dropLast 200 ∧ a > b) :=
        fun hh => hc ⟨hh.2.1, hh.2.2⟩
      rw [if_neg hc, if_neg hrhs]
      split_ifs <;> simp [List.filter_append, List.filter_cons, List.filter_nil]
  · have hrhs : ¬(p.length ≥ 200 ∧
        calculateSMA p.dropLast 50 < calculateSMA p.dropLast 200 ∧ a > b) :=
      fun hh => hL hh.1
    rw [if_neg hL, if_neg hrhs]
    simp

theorem length_crossPatterns (p : List ℚ) (a b : ℚ) : (crossPatterns p a b).length ≤ 1 := by
  unfold crossPatterns
  by_cases hL : p.length ≥ 200
  · rw [if_pos hL]
    by_cases hc1 : calculateSMA p.dropLast 50 < calculateSMA p.dropLast 200 ∧ a > b
    · rw [if_pos hc1]
      have hc2 : ¬(calculateSMA p.dropLast 50 > calculateSMA p.dropLast 200 ∧ a < b) :=
        fun hc => absurd hc.1 (not_lt.mpr (le_of_lt hc1.1))
      rw [if_neg hc2]
      simp
    · rw [if_neg hc1]
      split_ifs <;> simp
  · rw [if_neg hL]
    simp

theorem length_trendPatterns (c a b : ℚ) : (trendPatterns c a b).length ≤ 1 := by
  unfold trendPatterns
  split_ifs <;> simp

theorem length_supportResistancePatterns (c lo hi : ℚ) :
    (supportResistancePatterns c lo hi).length ≤ 2 := by
  unfold supportResistancePatterns
  split_ifs <;> simp

theorem length_uptrendPatterns (a b : List ℚ) : (uptrendPatterns a b).length ≤ 1 := by
  unfold uptrendPatterns
  split_ifs <;> simp

theorem countP_eq_zero_of_filter_nil {l : List Pattern} {nm : String}
    (h : l.filter (fun e => e.name = nm) = []) : l.countP (fun e => e.name = nm) = 0 := by
  rw [List.countP_eq_length_filter, h]
  rfl

theorem cross_gc_dc_count (p : List ℚ) (a b : ℚ) :
    (crossPatterns p a b).countP (fun e => e.name = "Golden Cross") +
      (crossPatterns p a b).countP (fun e => e.name = "Death Cross") ≤ 1 := by
  unfold crossPatterns
  by_cases hL : p.length ≥ 200
  · rw [if_pos hL]
    by_cases hc1 : calculateSMA p.dropLast 50 < calculateSMA p.dropLast 200 ∧ a > b
    · rw [if_pos hc1]
      have hc2 : ¬(calculateSMA p.dropLast 50 > calculateSMA p.dropLast 200 ∧ a < b) :=
        fun hc => absurd hc.1 (not_lt.mpr (le_of_lt hc1.1))
      rw [if_neg hc2]
      simp [List.countP_cons, List.countP_append]
    · rw [if_neg hc1]
      split_ifs <;> simp [List.countP_cons, List.countP_append]
  · rw [if_neg hL]
    simp

theorem trend_bull_bear_count (c a b : ℚ) :
    (trendPatterns c a b).countP (fun e => e.name = "Bullish Trend") +
      (trendPatterns c a b).countP (fun e => e.name = "Bearish Trend") ≤ 1 := by
  unfold trendPatterns
  split_ifs <;> simp [List.countP_cons]

theorem name_not_mem_of_filter_nil (l : List Pattern) (nm : String)
    (h : l.filter (fun e => e.name = nm) = []) : nm ∉ l.map Pattern.name := by
  intro hmem
  obtain ⟨e, he, hname⟩ := List.mem_map.mp hmem
  have hin : e ∈ l.filter (fun e => e.name = nm) :=
    List.mem_filter.mpr ⟨he, by simp [hname]⟩
  rw [h] at hin
  simp at hin

theorem mem_uptrendPatterns_iff (a b : List ℚ) :
    "Uptrend Structure" ∈ (uptrendPatterns a b).map Pattern.name ↔
      (strictAscending a && strictAscending b) = true := by
  unfold uptrendPatterns
  split_ifs with h <;> simp [h]

/-- C5: a "Golden Cross" pattern entry is emitted exactly when the input has
at least 200 points, the 50-SMA over the series without its last bar was
below the corresponding 200-SMA, and the current 50-SMA is above the
current 200-SMA — and then it is exactly one entry, with confidence 85 and
type bullish.  In particular any 200 monotonically increasing closes
satisfying the crossing condition yield exactly that one entry. -/
theorem goldenCross_exact (prices highs lows : List ℚ) :
    (detectPatterns prices highs lows).filter (fun e => e.name = "Golden Cross") =
      (if prices.length ≥ 200 ∧
          calculateSMA prices.dropLast 50 < calculateSMA prices.dropLast 200 ∧
          calculateSMA prices 50 > calculateSMA prices 200 then
        [{ name := "Golden Cross", type := PatternType.bullish, confidence := 85,
           description := "50 SMA crossed above 200 SMA - major bullish signal" }]
      else []) := by
  unfold detectPatterns
  simp only [List.filter_append]
  rw [filter_crossPatterns_gc,
    filter_trendPatterns _ _ _ _ (by decide) (by decide),
    filter_supportResistancePatterns _ _ _ _ (by decide) (by decide),
    filter_uptrendPatterns _ _ _ (by decide)]
  simp

/-- C10: the pattern detector emits at most 5 entries per invocation, and
the pairs Golden Cross / Death Cross and Bullish Trend / Bearish Trend are
each mutually exclusive (their entry counts sum to at most 1). -/
theorem detectPatterns_invariants (prices highs lows : List ℚ) :
    (detectPatterns prices highs lows).length ≤ 5 ∧
    (detectPatterns prices highs lows).countP (fun e => e.name = "Golden Cross") +
      (detectPatterns prices highs lows).countP (fun e => e.name = "Death Cross") ≤ 1 ∧
    (detectPatterns prices highs lows).countP (fun e => e.name = "Bullish Trend") +
      (detectPatterns prices highs lows).countP (fun e => e.name = "Bearish Trend") ≤ 1 := by
  refine ⟨?_, ?_, ?_⟩
  · unfold detectPatterns
    simp only [List.length_append]
    have h1 := length_crossPatterns prices (calculateSMA prices 50) (calculateSMA prices 200)
    have h2 := length_trendPatterns (prices.getLast?.getD 0) (calculateSMA prices 50)
      (calculateSMA prices 200)
    have h3 := length_supportResistancePatterns (prices.getLast?.getD 0)
      (listMin (lows.drop (lows.length - 20))) (listMax (highs.drop (highs.length - 20)))
    have h4 := length_uptrendPatterns (highs.drop (highs.length - 5))
      (lows.drop (lows.length - 5))
    omega
  · unfold detectPatterns
    simp only [List.countP_append]
    have h1 := cross_gc_dc_count prices (calculateSMA prices 50) (calculateSMA prices 200)
    have h2 := countP_eq_zero_of_filter_nil
      (filter_trendPatterns (prices.getLast?.getD 0) (calculateSMA prices 50)
        (calculateSMA prices 200) "Golden Cross" (by decide) (by decide))
    have h3 := countP_eq_zero_of_filter_nil
      (filter_trendPatterns (prices.getLast?.getD 0) (calculateSMA prices 50)
        (calculateSMA prices 200) "Death Cross" (by decide) (by decide))
    have h4 := countP_eq_zero_of_filter_nil
      (filter_supportResistancePatterns (prices.getLast?.getD 0)
        (listMin (lows.drop (lows.length - 20))) (listMax (highs.drop (highs.length - 20)))
        "Golden Cross" (by decide) (by decide))
    have h5 := countP_eq_zero_of_filter_nil
      (filter_supportResistancePatterns (prices.getLast?.getD 0)
        (listMin (lows.drop (lows.length - 20))) (listMax (highs.drop (highs.length - 20)))
        "Death Cross" (by decide) (by decide))
    have h6 := countP_eq_zero_of_filter_nil
      (filter_uptrendPatterns (highs.drop (highs.length - 5)) (lows.drop (lows.length - 5))
        "Golden Cross" (by decide))
    have h7 := countP_eq_zero_of_filter_nil
      (filter_uptrendPatterns (highs.drop (highs.length - 5)) (lows.drop (lows.length - 5))
        "Death Cross" (by decide))
    omega
  · unfold detectPatterns
    simp only [List.countP_append]
    have h1 := trend_bull_bear_count (prices.getLast?.getD 0) (calculateSMA prices 50)
      (calculateSMA prices 200)
    have h2 := countP_eq_zero_of_filter_nil
      (filter_crossPatterns_other prices (calculateSMA prices 50) (calculateSMA prices 200)
        "Bullish Trend" (by decide) (by decide))
    have h3 := countP_eq_zero_of_filter_nil
      (filter_crossPatterns_other prices (calculateSMA prices 50) (calculateSMA prices 200)
        "Bearish Trend" (by decide) (by decide))
    have h4 := countP_eq_zero_of_filter_nil
      (filter_supportResistancePatterns (prices.getLast?.getD 0)
        (listMin (lows.drop (lows.length - 20))) (listMax (highs.drop (highs.length - 20)))
        "Bullish Trend" (by decide) (by decide))
    have h5 := countP_eq_zero_of_filter_nil
      (filter_supportResistancePatterns (prices.getLast?.getD 0)
        (listMin (lows.drop (lows.length - 20))) (listMax (highs.drop (highs.length - 20)))
        "Bearish Trend" (by decide) (by decide))
    have h6 := countP_eq_zero_of_filter_nil
      (filter_uptrendPatterns (highs.drop (highs.length - 5)) (lows.drop (lows.length - 5))
        "Bullish Trend" (by decide))
    have h7 := countP_eq_zero_of_filter_nil
      (filter_uptrendPatterns (highs.drop (highs.length - 5)) (lows.drop (lows.length - 5))
        "Bearish Trend" (by decide))
    omega

/-- C6 counterexample: with only 4 bars of history — fewer than the 5 the
Uptrend Structure rule nominally needs — the rule still fires: the loop
vacuously checks only the available consecutive pairs, so 4 strictly
increasing highs/lows emit the pattern.  This refutes "a rule whose
required history is absent emits no pattern entry". -/
theorem uptrend_short_history_counterexample :
    (([1, 2, 3, 4] : List ℚ).length < 5) ∧
    "Uptrend Structure" ∈
      (detectPatterns [1, 2, 3, 4] [1, 2, 3, 4] [1, 2, 3, 4]).map Pattern.name := by
  refine ⟨by decide, ?_⟩
  unfold detectPatterns
  simp only [List.map_append, List.mem_append]
  refine Or.inr ?_
  rw [mem_uptrendPatterns_iff]
  decide

/-- C6 (amended): the Uptrend Structure rule applies its strictly-increasing
check to however many of the last 5 highs/lows exist, firing even on short
(or empty) history whenever all available consecutive pairs increase; the
rules with an explicit length guard (Golden/Death Cross, requiring at least
200 points) emit nothing when that history is absent. -/
theorem uptrend_fires_iff (prices highs lows : List ℚ) :
    ("Uptrend Structure" ∈ (detectPatterns prices highs lows).map Pattern.name ↔
      (strictAscending (highs.drop (highs.length - 5)) &&
        strictAscending (lows.drop (lows.length - 5))) = true) ∧
    (prices.length < 200 →
      "Golden Cross" ∉ (detectPatterns prices highs lows).map Pattern.name ∧
      "Death Cross" ∉ (detectPatterns prices highs lows).map Pattern.name) := by
  constructor
  · unfold detectPatterns
    simp only [List.map_append, List.mem_append]
    constructor
    · rintro (((h | h) | h) | h)
      · exact absurd h (name_not_mem_of_filter_nil _ _
          (filter_crossPatterns_other _ _ _ _ (by decide) (by decide)))
      · exact absurd h (name_not_mem_of_filter_nil _ _
          (filter_trendPatterns _ _ _ _ (by decide) (by decide)))
      · exact absurd h (name_not_mem_of_filter_nil _ _
          (filter_supportResistancePatterns _ _ _ _ (by decide) (by decide)))
      · exact (mem_uptrendPatterns_iff _ _).mp h
    · intro hcond
      exact Or.inr ((mem_uptrendPatterns_iff _ _).mpr hcond)
  · intro hlen
    unfold detectPatterns
    have hcross : crossPatterns prices (calculateSMA prices 50) (calculateSMA prices 200) = [] := by
      unfold crossPatterns
      rw [if_neg (by omega)]
    rw [hcross]
    simp only [List.nil_append, List.map_append, List.mem_append]
    constructor
    · rintro ((h | h) | h)
      · exact absurd h (name_not_mem_of_filter_nil _ _
          (filter_trendPatterns _ _ _ _ (by decide) (by decide)))
      · exact absurd h (name_not_mem_of_filter_nil _ _
          (filter_supportResistancePatterns _ _ _ _ (by decide) (by decide)))
      · exact absurd h (name_not_mem_of_filter_nil _ _
          (filter_uptrendPatterns _ _ _ (by decide)))
    · rintro ((h | h) | h)
      · exact absurd h (name_not_mem_of_filter_nil _ _
          (filter_trendPatterns _ _ _ _ (by decide) (by decide)))
      · exact absurd h (name_not_mem_of_filter_nil _ _
          (filter_supportResistancePatterns _ _ _ _ (by decide) (by decide)))
      · exact absurd h (name_not_mem_of_filter_nil _ _
          (filter_uptrendPatterns _ _ _ (by decide)))

theorem uptrend_fires_iff_witness :
    (([1, 2, 3, 4] : List ℚ).length < 200) ∧
    ("Golden Cross" ∉
        (detectPatterns [1, 2, 3, 4] [1, 2, 3, 4] [1, 2, 3, 4]).map Pattern.name ∧
     "Death Cross" ∉
        (detectPatterns [1, 2, 3, 4] [1, 2, 3, 4] [1, 2, 3, 4]).map Pattern.name) :=
  ⟨by decide, (uptrend_fires_iff [1, 2, 3, 4] [1, 2, 3, 4] [1, 2, 3, 4]).2 (by decide)⟩

end TechnicalAnalysis
